import Mathlib

/-!
# Flash-sale reservation pipeline: shallow embedding and verification

This file embeds the concurrency-control core of the flash-sale repository:

* the Redis Lua scripts of `src/infrastructure/redis/lua-scripts.ts`
  (`ATTEMPT_PURCHASE_SCRIPT`, `GET_USER_STATUS_SCRIPT`,
  `SET_USER_RESULT_SCRIPT`, `INITIALIZE_STOCK_SCRIPT`, `RESTORE_STOCK_SCRIPT`),
* the JavaScript glue of `src/infrastructure/redis/RedisService.ts`
  (key construction and conversion of script replies),
* the orchestrator `FlashSaleService.attemptPurchase` of
  `src/services/FlashSaleService.ts`, and
* the finalizer `processFlashSaleAttempt` of the worker, together with
  `OrderRepository.create` / `OrderRepository.findByUserId`.

The Redis store is modelled as three partial maps: string values (`kv`),
per-key time-to-live (`ttl`), and set membership (`sets`).  Keeping string
values and sets in separate maps is sound because a string key and a set
key never collide in this system: every key carries a distinct fixed prefix
(`flashsale:stock:` / `flashsale:attempted:` / `flashsale:result:`), so the
two families are disjoint in the real flat keyspace as well.

Lua semantics that matter and are modelled faithfully:

* `redis.call('GET', k)` on a missing key yields the Lua boolean `false`
  (not `nil`); `LuaV.fls` represents it.
* Converting a returned Lua table to a Redis reply truncates the array at
  the first `nil` element; `luaReply` implements this.
* `a and b` / `a or b` are the usual Lua short-circuit forms on truthiness
  (`nil` and `false` are the only falsy values).
* `DECR`/`INCR` parse the stored string as an integer (missing key counts
  as 0) and error on a non-integer string; script-level errors are
  propagated as `Option.none` through the embedding.
-/

/-- Digit value of a character, for decimal parsing. -/
def digitVal? (c : Char) : Option Nat :=
  if '0' ≤ c ∧ c ≤ '9' then some (c.toNat - '0'.toNat) else none

/-- Accumulate decimal digits; any non-digit fails the parse. -/
def parseDigitsAux : List Char → Nat → Option Nat
  | [], acc => some acc
  | c :: cs, acc => match digitVal? c with
    | some d => parseDigitsAux cs (acc * 10 + d)
    | none => none

/-- Parse a non-empty run of decimal digits. -/
def parseDigits : List Char → Option Nat
  | [] => none
  | l => parseDigitsAux l 0

/-- Decimal-integer parse of a string, the shared semantics of Lua
`tonumber` and JS `parseInt` on the integer strings this system stores
(an optional leading minus, then digits); `none` for anything else.
Structural recursion keeps it kernel-evaluable. -/
def parseIntStr (s : String) : Option Int :=
  match s.data with
  | [] => none
  | '-' :: rest => (parseDigits rest).map fun n => -(n : Int)
  | l => parseDigits l

/-- A Lua value as it occurs in the embedded scripts. -/
inductive LuaV : Type
  | nil : LuaV
  | fls : LuaV
  | num : Int → LuaV
  | str : String → LuaV
deriving DecidableEq, Repr

/-- Lua truthiness: `nil` and `false` are falsy, everything else truthy. -/
def LuaV.truthy : LuaV → Bool
  | .nil => false
  | .fls => false
  | _ => true

/-- Lua `a and b`: `b` if `a` is truthy, else `a`. -/
def luaAnd (a b : LuaV) : LuaV := if a.truthy then b else a

/-- Lua `a or b`: `a` if `a` is truthy, else `b`. -/
def luaOr (a b : LuaV) : LuaV := if a.truthy then a else b

/-- Lua `tonumber` restricted to the values the scripts feed it:
integer strings convert, anything else yields `nil`. -/
def luaTonumber : LuaV → LuaV
  | .str s => match parseIntStr s with
    | some n => .num n
    | none => .nil
  | .num n => .num n
  | _ => .nil

/-- Converting a Lua table to a Redis multi-bulk reply: numeric elements are
kept, and the array is truncated at the first non-number (the scripts only
place numbers and `nil` in returned tables, and Redis truncates at `nil`). -/
def luaReply : List LuaV → List Int
  | [] => []
  | .num n :: rest => n :: luaReply rest
  | _ :: _ => []

/-- A stored Redis string value.  Every value is a string on the wire;
`int n` tags a value written by `INCR`/`DECR`/`SET`-with-a-number as the
decimal rendering of `n`, so that re-parsing it (`tonumber`, `parseInt`)
recovers `n` exactly — the true round-trip fact about decimal strings,
recorded by the tag instead of re-proved about digit sequences. -/
inductive RVal : Type
  | str : String → RVal
  | int : Int → RVal
deriving DecidableEq, Repr

/-- The wire string of a stored value. -/
def RVal.render : RVal → String
  | .str s => s
  | .int n => toString n

/-- `tonumber`/`parseInt` applied to the wire string of a stored value: a
tagged integer parses back to itself; a plain string goes through
`parseIntStr` (`none` models a non-numeric parse, Lua `nil`). -/
def RVal.asInt? : RVal → Option Int
  | .int n => some n
  | .str s => parseIntStr s

/-- The Redis store: string values, per-key TTL (seconds), set membership. -/
structure Redis : Type where
  kv : String → Option RVal
  ttl : String → Option Nat
  sets : String → String → Bool

/-- The empty store: no keys exist. -/
def Redis.empty : Redis :=
  { kv := fun _ => none, ttl := fun _ => none, sets := fun _ _ => false }

/-- `redis.call('GET', k)` as a Lua value: the stored string, or Lua `false`
when the key is missing. -/
def Redis.luaGet (r : Redis) (k : String) : LuaV :=
  match r.kv k with
  | some v => .str v.render
  | none => .fls

/-- The composite `tonumber(redis.call('GET', k) or '0')`: a missing key
reads as `'0'` and parses to 0; a stored value is parsed from its wire
string (`nil`, i.e. `none`, for a non-numeric string). -/
def Redis.getNum? (r : Redis) (k : String) : Option Int :=
  match r.kv k with
  | none => some 0
  | some v => v.asInt?

/-- `Redis.getNum?` as the Lua value the composite expression produces. -/
def Redis.getNumLua (r : Redis) (k : String) : LuaV :=
  match r.getNum? k with
  | some n => .num n
  | none => .nil

/-- `SET k v` with a string argument: stores it and clears any TTL
(plain SET discards TTL). -/
def Redis.set (r : Redis) (k : String) (v : RVal) : Redis :=
  { r with kv := Function.update r.kv k (some v),
           ttl := Function.update r.ttl k none }

/-- `SETEX k t v`: stores the string with a TTL of `t` seconds. -/
def Redis.setex (r : Redis) (k : String) (t : Nat) (v : String) : Redis :=
  { r with kv := Function.update r.kv k (some (.str v)),
           ttl := Function.update r.ttl k (some t) }

/-- `SADD k m`: adds `m` to the set at `k`. -/
def Redis.sadd (r : Redis) (k m : String) : Redis :=
  { r with sets := fun k' m' => if k' = k ∧ m' = m then true else r.sets k' m' }

/-- `INCR`/`DECR` rewrite the key with the decimal rendering of the new
value; TTL is preserved by these commands. -/
def Redis.setInt (r : Redis) (k : String) (n : Int) : Redis :=
  { r with kv := Function.update r.kv k (some (.int n)) }

/-! ## The Lua scripts (`lua-scripts.ts`) -/

/-- `ATTEMPT_PURCHASE_SCRIPT` (lua-scripts.ts:16-62), KEYS = [stockKey,
attemptedSetKey], ARGV = [userId].  Returns the Redis reply (a list of
integers) and the updated store, or `none` when the script errors
(comparison of a non-numeric stock string with a number). -/
def attemptPurchaseScript (stockKey attemptedSetKey userId : String)
    (r : Redis) : Option (List Int × Redis) :=
  -- local isMember = redis.call('SISMEMBER', attemptedSetKey, userId)
  if r.sets attemptedSetKey userId then
    -- local currentStock = redis.call('GET', stockKey) or '0'
    -- return {0, tonumber(currentStock), 0}
    some (luaReply [.num 0, r.getNumLua stockKey, .num 0], r)
  else
    -- local stock = tonumber(redis.call('GET', stockKey) or '0')
    match r.getNum? stockKey with
    | some stock =>
      if stock ≤ 0 then
        -- redis.call('SADD', attemptedSetKey, userId); return {0, stock, 1}
        some (luaReply [.num 0, .num stock, .num 1], r.sadd attemptedSetKey userId)
      else
        -- local newStock = redis.call('DECR', stockKey)
        let newStock := stock - 1
        let r1 := r.setInt stockKey newStock
        if newStock < 0 then
          -- redis.call('INCR', stockKey); redis.call('SADD', ...); return {0, newStock + 1, 1}
          let r2 := r1.setInt stockKey (newStock + 1)
          some (luaReply [.num 0, .num (newStock + 1), .num 1],
            r2.sadd attemptedSetKey userId)
        else
          -- redis.call('SADD', attemptedSetKey, userId); return {1, newStock, 1}
          some (luaReply [.num 1, .num newStock, .num 1],
            r1.sadd attemptedSetKey userId)
    | none =>
      -- `stock <= 0` with stock = nil is a Lua error: the script aborts
      none

/-- `GET_USER_STATUS_SCRIPT` (lua-scripts.ts:75-89), KEYS = [attemptedSetKey,
resultKey], ARGV = [userId].  Never errors.  Note that `GET` on a missing
key yields Lua `false`, so `result ~= nil` compares `false` with `nil`. -/
def getUserStatusScript (attemptedSetKey resultKey userId : String)
    (r : Redis) : List Int :=
  -- local hasAttempted = redis.call('SISMEMBER', attemptedSetKey, userId)
  let hasAttempted : Int := if r.sets attemptedSetKey userId then 1 else 0
  -- local result = redis.call('GET', resultKey)
  let result := r.luaGet resultKey
  -- local hasResult = result ~= nil and 1 or 0
  let hasResult : Int := if result ≠ LuaV.nil then 1 else 0
  -- local resultValue = result and tonumber(result) or nil
  let resultValue := luaOr (luaAnd result (luaTonumber result)) .nil
  -- return {hasAttempted, hasResult, resultValue}
  luaReply [.num hasAttempted, .num hasResult, resultValue]

/-- `SET_USER_RESULT_SCRIPT` (lua-scripts.ts:95-102): `SETEX resultKey ttl
success`. -/
def setUserResultScript (resultKey : String) (success : String) (ttl : Nat)
    (r : Redis) : Redis :=
  r.setex resultKey ttl success

/-- `INITIALIZE_STOCK_SCRIPT` (lua-scripts.ts:108-115): `SET stockKey stock`
(the numeric argument is rendered as its decimal string). -/
def initializeStockScript (stockKey : String) (stock : Int) (r : Redis) : Redis :=
  r.set stockKey (.int stock)

/-- `RESTORE_STOCK_SCRIPT` (lua-scripts.ts:121-127): `INCR stockKey`;
returns the new value, or errors on a non-integer stored string. -/
def restoreStockScript (stockKey : String) (r : Redis) : Option (Int × Redis) :=
  match r.getNum? stockKey with
  | some old => some (old + 1, r.setInt stockKey (old + 1))
  | none => none

/-! ## RedisService (`RedisService.ts`): key construction and reply glue -/

namespace RedisService

/-- `flashsale:stock:{productId}` (RedisService.ts, every stock method). -/
def stockKey (productId : String) : String := "flashsale:stock:" ++ productId

/-- `flashsale:attempted:{productId}` (RedisService.ts). -/
def attemptedSetKey (productId : String) : String :=
  "flashsale:attempted:" ++ productId

/-- `flashsale:result:{userId}:{productId}` (RedisService.ts). -/
def resultKey (userId productId : String) : String :=
  "flashsale:result:" ++ userId ++ ":" ++ productId

/-- The decoded result of `RedisService.attemptPurchase`.
`remainingStock` is `result[1] as number`: absent (`none`) when the reply
was truncated short of index 1 (JavaScript `undefined`). -/
structure AttemptPurchaseResult : Type where
  success : Bool
  remainingStock : Option Int
  wasNewAttempt : Bool
deriving DecidableEq, Repr

/-- `RedisService.attemptPurchase(userId, productId)`: runs the script on
`[stockKey, attemptedSetKey]` and decodes `[success, remainingStock,
wasNewAttempt]` with `result[0] === 1` / `result[2] === 1`. -/
def attemptPurchase (userId productId : String) (r : Redis) :
    Option (AttemptPurchaseResult × Redis) :=
  match attemptPurchaseScript (stockKey productId) (attemptedSetKey productId)
      userId r with
  | none => none
  | some (reply, r') =>
    some ({ success := reply[0]? = some 1,
            remainingStock := reply[1]?,
            wasNewAttempt := reply[2]? = some 1 }, r')

/-- The decoded result of `RedisService.getUserStatus`. -/
structure UserStatusResult : Type where
  hasAttempted : Bool
  hasResult : Bool
  result : Option Bool
deriving DecidableEq, Repr

/-- JavaScript `x !== null` where `x` is `result[2]` of the status reply: a
number, or `undefined` (`none`) when the reply array is shorter than 3 —
never `null`, since the script places only numbers before any `nil`.  Both a
number and `undefined` are strictly unequal to `null`. -/
def jsStrictNeNull : Option Int → Bool
  | none => true
  | some _ => true

/-- `RedisService.getUserStatus(userId, productId)`: runs the status script
on `[attemptedSetKey, resultKey]` and decodes
`{hasAttempted: r[0]===1, hasResult: r[1]===1,
  result: r[2] !== null ? r[2] === 1 : null}`. -/
def getUserStatus (userId productId : String) (r : Redis) : UserStatusResult :=
  let reply := getUserStatusScript (attemptedSetKey productId)
    (resultKey userId productId) userId r
  { hasAttempted := reply[0]? = some 1,
    hasResult := reply[1]? = some 1,
    result := if jsStrictNeNull reply[2]? then some (reply[2]? = some 1)
              else none }

/-- `RedisService.setUserResult(userId, productId, success)`: runs the SETEX
script with value `'1'`/`'0'` and `ttl = 86400`. -/
def setUserResult (userId productId : String) (success : Bool) (r : Redis) :
    Redis :=
  setUserResultScript (resultKey userId productId)
    (if success then "1" else "0") 86400 r

/-- `RedisService.getStock(productId)`: `GET` then
`stock ? parseInt(stock, 10) : 0`.  A missing or empty value yields 0; a
non-integer string parses to `NaN`, which behaves like 0 in the only use
site (the `< 0` comparison), so it is rendered as 0 here. -/
def getStock (productId : String) (r : Redis) : Int :=
  match r.kv (stockKey productId) with
  | none => 0
  | some v => (v.asInt?).getD 0

/-- `RedisService.stockKeyExists(productId)`: `EXISTS`. -/
def stockKeyExists (productId : String) (r : Redis) : Bool :=
  (r.kv (stockKey productId)).isSome

/-- `RedisService.initializeStock(productId, stock)`. -/
def initializeStock (productId : String) (stock : Int) (r : Redis) : Redis :=
  initializeStockScript (stockKey productId) stock r

/-- `RedisService.restoreStock(productId)`. -/
def restoreStock (productId : String) (r : Redis) : Option (Int × Redis) :=
  restoreStockScript (stockKey productId) r

end RedisService

/-! ## FlashSaleService (`FlashSaleService.ts`) -/

/-- A flash-sale row as `FlashSaleRepository.findById` returns it.  Times are
epoch instants (JavaScript `Date` comparisons go through `valueOf`). -/
structure FlashSale : Type where
  id : Nat
  productId : Nat
  startAt : Int
  endAt : Int
  remainingStock : Int
deriving DecidableEq, Repr

/-- Stand-in rendering of `Date.toISOString()` for an epoch instant; it is
injective, which is all the message-content properties need. -/
def isoString (t : Int) : String := toString t

/-- The `{success, message}` payload of `attemptPurchase`. -/
structure PurchaseResponse : Type where
  success : Bool
  message : String
deriving DecidableEq, Repr

/-- One observable call the orchestrator makes against its collaborators,
in program order.  `tryReserve` is the atomic reservation script. -/
inductive Ev : Type
  | stockExists (productId : String)
  | initStock (productId : String) (stock : Int)
  | tryReserve (userId productId : String)
  | getStatus (userId productId : String)
  | setResult (userId productId : String) (success : Bool)
  | audit
  | enqueue (userId productId saleId : String)
  | restore (productId : String)
deriving DecidableEq, Repr

namespace FlashSaleService

/-- `FlashSaleService.attemptPurchase(userId, saleId)`
(FlashSaleService.ts:69-186).  `findById` is the sale repository, `now` the
clock reading, `kafkaOk` whether `kafkaProducer.sendAttempt` succeeds.
Returns the response, the final Redis state, and the trace of collaborator
calls; `none` when a Redis script error propagates out. -/
def attemptPurchase (findById : Nat → Option FlashSale) (now : Int)
    (kafkaOk : Bool) (userId : String) (saleId : Nat) (r : Redis) :
    Option (PurchaseResponse × Redis × List Ev) :=
  match findById saleId with
  | none =>
    some (⟨false, "Flash sale with ID " ++ toString saleId ++ " not found."⟩,
      r, [])
  | some fs =>
    if now < fs.startAt then
      some (⟨false, "Flash sale is not yet active. Start time: " ++
        isoString fs.startAt⟩, r, [])
    else if fs.endAt < now then
      some (⟨false, "Flash sale has ended. End time: " ++
        isoString fs.endAt⟩, r, [])
    else
      let productId := toString fs.productId
      -- lazy stock initialization when the key does not exist
      let exists0 := RedisService.stockKeyExists productId r
      let r1 := if exists0 then r
                else RedisService.initializeStock productId fs.remainingStock r
      let evInit := if exists0 then [Ev.stockExists productId]
                    else [Ev.stockExists productId,
                          Ev.initStock productId fs.remainingStock]
      match RedisService.attemptPurchase userId productId r1 with
      | none => none
      | some (ar, r2) =>
        if !ar.wasNewAttempt then
          let us := RedisService.getUserStatus userId productId r2
          let evs := evInit ++ [Ev.tryReserve userId productId,
            Ev.getStatus userId productId]
          if us.hasResult ∧ us.result ≠ none then
            -- userStatus.result is non-null in this branch
            some (⟨us.result.getD false,
              if us.result.getD false then
                "You have successfully secured an item!"
              else "Your purchase attempt was unsuccessful."⟩, r2, evs)
          else
            some (⟨false,
              "Your purchase attempt is being processed. Please check back shortly."⟩,
              r2, evs)
        else if !ar.success then
          let r3 := RedisService.setUserResult userId productId false r2
          some (⟨false, "Sorry, the item is out of stock."⟩, r3,
            evInit ++ [Ev.tryReserve userId productId,
              Ev.setResult userId productId false])
        else
          -- fire-and-forget audit write, then the Kafka publish
          let evs := evInit ++ [Ev.tryReserve userId productId, Ev.audit,
            Ev.enqueue userId productId (toString saleId)]
          if kafkaOk then
            some (⟨true,
              "Your purchase attempt has been received and is being processed."⟩,
              r2, evs)
          else
            match RedisService.restoreStock productId r2 with
            | none => none
            | some (_, r3) =>
              some (⟨false, "Failed to process your request. Please try again."⟩,
                r3, evs ++ [Ev.restore productId])

end FlashSaleService

/-! ## Durable store and the order finalizer (worker) -/

/-- A row of the `orders` table (migration `004_create_orders_table`); the
table carries a unique index on `(sale_id, user_id)`. -/
structure OrderRow : Type where
  id : Nat
  saleId : Int
  productId : Int
  userId : Int
  status : String
deriving DecidableEq, Repr

/-- The durable store: the `orders` table and its id sequence. -/
structure Db : Type where
  orders : List OrderRow
  nextId : Nat
deriving DecidableEq, Repr

/-- JavaScript `s.includes(pat)`: substring containment. -/
def jsIncludes (s pat : String) : Bool := decide (pat.data <:+: s.data)

namespace OrderRepository

/-- `OrderRepository.findByUserId(userId, saleId)`: `parseInt` the user id
and select the first row matching `(user_id, sale_id)`.  (Only decimal user
ids occur; a non-numeric id matches no row.) -/
def findByUserId (userId : String) (saleId : Int) (db : Db) : Option OrderRow :=
  match parseIntStr userId with
  | none => none
  | some uid => db.orders.find? fun o => o.userId = uid ∧ o.saleId = saleId

/-- `OrderRepository.create(order)`: validate ids, map the legacy
`CONFIRMED` status (an alias whose value is the string `SUCCESS`), and
insert; the unique index on `(sale_id, user_id)` rejects a duplicate, which
the repository surfaces as the error `Order already exists for this user`. -/
def create (userId productId status : String) (saleId : Int) (db : Db) :
    Except String (OrderRow × Db) :=
  match parseIntStr userId with
  | none => .error "Invalid userId: must be a number or numeric string"
  | some uid =>
    if saleId = 0 then .error "saleId is required"
    else
      match parseIntStr productId with
      | none => .error "Invalid productId: must be a number or numeric string"
      | some pid =>
        -- OrderStatus.CONFIRMED has the value 'SUCCESS'
        let status1 := if status = "SUCCESS" then "SUCCESS" else status
        if db.orders.any fun o => o.saleId = saleId ∧ o.userId = uid then
          .error "Order already exists for this user"
        else
          let row : OrderRow :=
            { id := db.nextId, saleId := saleId, productId := pid,
              userId := uid, status := status1 }
          .ok (row, { orders := db.orders ++ [row], nextId := db.nextId + 1 })

end OrderRepository

/-- An Attempt Queue message `{userId, productId, saleId, timestamp}`. -/
structure FlashSaleAttempt : Type where
  userId : String
  productId : String
  saleId : String
  timestamp : Int
deriving DecidableEq, Repr

/-- `processFlashSaleAttempt` of the worker.  `mid` is the durable-store
interference that other finalizer instances may commit between the
idempotency lookup and the insert (the two are separate awaited calls);
sequential redelivery uses `mid = id`. -/
def processFlashSaleAttempt (a : FlashSaleAttempt) (mid : Db → Db)
    (r : Redis) (db : Db) : Redis × Db :=
  -- if (!saleId): the empty string is the only falsy value reaching here
  if a.saleId = "" then
    (RedisService.setUserResult a.userId a.productId false r, db)
  else
    -- const saleIdNum = parseInt(saleId, 10); messages carry decimal ids
    let saleIdNum : Int := (parseIntStr a.saleId).getD 0
    match OrderRepository.findByUserId a.userId saleIdNum db with
    | some existingOrder =>
      -- duplicate delivery: surface the existing order's status
      (RedisService.setUserResult a.userId a.productId
        (existingOrder.status = "SUCCESS") r, db)
    | none =>
      let stock := RedisService.getStock a.productId r
      if stock < 0 then
        (RedisService.setUserResult a.userId a.productId false r, db)
      else
        let db1 := mid db
        match OrderRepository.create a.userId a.productId "SUCCESS" saleIdNum
            db1 with
        | .ok (_, db2) =>
          (RedisService.setUserResult a.userId a.productId true r, db2)
        | .error e =>
          if jsIncludes e "already exists" then
            -- constraint violation: re-read the winning row
            match OrderRepository.findByUserId a.userId saleIdNum db1 with
            | some existingOrder =>
              (RedisService.setUserResult a.userId a.productId
                (existingOrder.status = "SUCCESS") r, db1)
            | none => (r, db1)
          else
            (RedisService.setUserResult a.userId a.productId false r, db1)

/-- `n` sequential deliveries of the same message to the finalizer. -/
def deliverN (a : FlashSaleAttempt) : Nat → Redis × Db → Redis × Db
  | 0, rd => rd
  | n + 1, rd => deliverN a n (processFlashSaleAttempt a id rd.1 rd.2)

/-- The number of Order rows for a given `(userId, saleId)` key. -/
def ordersFor (db : Db) (uid saleId : Int) : Nat :=
  (db.orders.filter fun o => o.userId = uid ∧ o.saleId = saleId).length

/-! ## Spec-side model of the reservation primitive (§4.1)

These definitions transcribe the *specification's* four-step algorithm, to
be compared with the embedded script; they are deliberately written from
the spec's words, not from the code. -/

/-- The spec's `tryReserve` result `{granted, remaining, firstAttempt}`. -/
structure ReserveResult : Type where
  granted : Bool
  remaining : Int
  firstAttempt : Bool
deriving DecidableEq, Repr

/-- The spec's per-product reservation state: the StockCounter and the
AttemptedSet. -/
structure SpecState : Type where
  counter : Int
  attempted : String → Bool

/-- Add a user to the spec-level AttemptedSet. -/
def SpecState.addAttempted (s : SpecState) (u : String) : SpecState :=
  { s with attempted := fun u' => if u' = u then true else s.attempted u' }

/-- §4.1's four-step `tryReserve`, transcribed from the spec: (1) a repeat
caller is denied without state change; (2) with counter ≤ 0 the user is
still marked attempted and denied; (3) after a decrement that lands below
zero, the counter is restored to the floor, the user marked attempted, and
the call denied (the spec leaves step 3's `remaining` field unstated; it is
rendered as the restored counter, and the branch is unreachable for integer
counters anyway); (4) otherwise the user is marked attempted and granted. -/
def tryReserveSpec (u : String) (s : SpecState) : ReserveResult × SpecState :=
  if s.attempted u then
    ({ granted := false, remaining := s.counter, firstAttempt := false }, s)
  else if s.counter ≤ 0 then
    ({ granted := false, remaining := s.counter, firstAttempt := true },
      s.addAttempted u)
  else
    let newCounter := s.counter - 1
    if newCounter < 0 then
      ({ granted := false, remaining := newCounter + 1, firstAttempt := true },
        (SpecState.mk (newCounter + 1) s.attempted).addAttempted u)
    else
      ({ granted := true, remaining := newCounter, firstAttempt := true },
        (SpecState.mk newCounter s.attempted).addAttempted u)

/-- Abstraction of the Redis store to the spec state of one product: the
parsed StockCounter (0 when missing or unparsable) and membership in the
attempted set. -/
def absState (r : Redis) (p : String) : SpecState :=
  { counter := (r.getNum? (RedisService.stockKey p)).getD 0,
    attempted := fun u => r.sets (RedisService.attemptedSetKey p) u }

/-! ## Sequenced executions of the reservation script -/

/-- Run `RedisService.attemptPurchase` once per listed user, in order,
against one product; the atomic script serializes concurrent callers, so a
list of calls is the general shape of contended access. -/
def runAttempts (p : String) :
    List String → Redis → Option (List RedisService.AttemptPurchaseResult × Redis)
  | [], r => some ([], r)
  | u :: us, r =>
    match RedisService.attemptPurchase u p r with
    | none => none
    | some (ar, r') =>
      match runAttempts p us r' with
      | none => none
      | some (ars, r'') => some (ar :: ars, r'')

/-- The number of granted results in a run. -/
def grants (l : List RedisService.AttemptPurchaseResult) : Nat :=
  (l.filter fun a => a.success).length

/-! ## Basic store lemmas -/

theorem Redis.kv_sadd (r : Redis) (k m : String) : (r.sadd k m).kv = r.kv := rfl

theorem Redis.ttl_sadd (r : Redis) (k m : String) : (r.sadd k m).ttl = r.ttl := rfl

theorem Redis.getNum?_sadd (r : Redis) (k m k' : String) :
    (r.sadd k m).getNum? k' = r.getNum? k' := rfl

theorem Redis.sets_setInt (r : Redis) (k : String) (n : Int) :
    (r.setInt k n).sets = r.sets := rfl

theorem Redis.ttl_setInt (r : Redis) (k : String) (n : Int) :
    (r.setInt k n).ttl = r.ttl := rfl

theorem Redis.getNum?_setInt_self (r : Redis) (k : String) (n : Int) :
    (r.setInt k n).getNum? k = some n := by
  simp [Redis.getNum?, Redis.setInt, RVal.asInt?]

theorem Redis.getNum?_setInt_ne (r : Redis) (k : String) (n : Int)
    (k' : String) (h : k' ≠ k) : (r.setInt k n).getNum? k' = r.getNum? k' := by
  simp [Redis.getNum?, Redis.setInt, Function.update_noteq h]

theorem Redis.sets_sadd_self (r : Redis) (k m : String) :
    (r.sadd k m).sets k m = true := by
  simp [Redis.sadd]

theorem Redis.sets_sadd (r : Redis) (k m k' m' : String) :
    (r.sadd k m).sets k' m' =
      if k' = k ∧ m' = m then true else r.sets k' m' := rfl

theorem Redis.sets_sadd_mono (r : Redis) (k m k' m' : String)
    (h : r.sets k' m' = true) : (r.sadd k m).sets k' m' = true := by
  by_cases hc : k' = k ∧ m' = m <;> simp [Redis.sadd, hc, h]

/-! ## Branch lemmas for the reservation script -/

/-- Branch 1: a user already in the attempted set is denied with
`wasNewAttempt = false` and the store is untouched. -/
theorem attemptPurchase_member (u p : String) (r : Redis)
    (h : r.sets (RedisService.attemptedSetKey p) u = true) :
    RedisService.attemptPurchase u p r =
      some (⟨false, r.getNum? (RedisService.stockKey p), false⟩, r) := by
  unfold RedisService.attemptPurchase attemptPurchaseScript
  rw [h]
  simp only [if_true]
  cases hg : r.getNum? (RedisService.stockKey p) with
  | none => simp [Redis.getNumLua, hg, luaReply]
  | some c => simp [Redis.getNumLua, hg, luaReply]

/-- Branch 2: a first-time caller with counter ≤ 0 is denied but recorded in
the attempted set; the counter is not written. -/
theorem attemptPurchase_soldOut (u p : String) (r : Redis) (v : Int)
    (hm : r.sets (RedisService.attemptedSetKey p) u = false)
    (hv : r.getNum? (RedisService.stockKey p) = some v) (hle : v ≤ 0) :
    RedisService.attemptPurchase u p r =
      some (⟨false, some v, true⟩,
        r.sadd (RedisService.attemptedSetKey p) u) := by
  unfold RedisService.attemptPurchase attemptPurchaseScript
  rw [hm, hv]
  simp [luaReply, hle]

/-- Branches 3-4: a first-time caller with counter > 0 is granted; the
counter is decremented (the defensive negative check cannot fire) and the
user recorded in the attempted set. -/
theorem attemptPurchase_granted (u p : String) (r : Redis) (v : Int)
    (hm : r.sets (RedisService.attemptedSetKey p) u = false)
    (hv : r.getNum? (RedisService.stockKey p) = some v) (hgt : 0 < v) :
    RedisService.attemptPurchase u p r =
      some (⟨true, some (v - 1), true⟩,
        (r.setInt (RedisService.stockKey p) (v - 1)).sadd
          (RedisService.attemptedSetKey p) u) := by
  unfold RedisService.attemptPurchase attemptPurchaseScript
  rw [hm, hv]
  have h1 : ¬ v ≤ 0 := not_le.mpr hgt
  have h2 : ¬ v - 1 < 0 := by omega
  simp [luaReply, h1, h2]

/-! ## Abstraction lemmas -/

theorem absState_sadd (r : Redis) (p u : String) :
    absState (r.sadd (RedisService.attemptedSetKey p) u) p =
      (absState r p).addAttempted u := by
  unfold absState SpecState.addAttempted
  simp only [Redis.getNum?_sadd, SpecState.mk.injEq, true_and]
  funext u'
  by_cases h : u' = u <;> simp [Redis.sadd, h]

theorem absState_setInt (r : Redis) (p : String) (n : Int) :
    absState (r.setInt (RedisService.stockKey p) n) p =
      SpecState.mk n (absState r p).attempted := by
  unfold absState
  simp [Redis.getNum?_setInt_self, Redis.sets_setInt]

/-- The embedded script together with its JS decoding implements §4.1's
four-step algorithm exactly, whenever the stored counter parses (it always
does in reachable states).  Results correspond field-for-field and the new
store abstracts to the spec's new state. -/
theorem attemptPurchase_refines_spec (u p : String) (r : Redis) (v : Int)
    (hv : r.getNum? (RedisService.stockKey p) = some v) :
    ∃ r', RedisService.attemptPurchase u p r =
        some (⟨(tryReserveSpec u (absState r p)).1.granted,
               some (tryReserveSpec u (absState r p)).1.remaining,
               (tryReserveSpec u (absState r p)).1.firstAttempt⟩, r') ∧
      absState r' p = (tryReserveSpec u (absState r p)).2 := by
  have hcounter : (absState r p).counter = v := by simp [absState, hv]
  have hatt : (absState r p).attempted u =
      r.sets (RedisService.attemptedSetKey p) u := rfl
  by_cases hm : r.sets (RedisService.attemptedSetKey p) u = true
  · refine ⟨r, ?_, ?_⟩
    · rw [attemptPurchase_member u p r hm]
      unfold tryReserveSpec
      rw [hatt, hm]
      simp [hcounter, hv]
    · unfold tryReserveSpec
      rw [hatt, hm]
      simp
  · have hm' : r.sets (RedisService.attemptedSetKey p) u = false :=
      Bool.eq_false_iff.mpr hm
    by_cases hle : v ≤ 0
    · refine ⟨r.sadd (RedisService.attemptedSetKey p) u, ?_, ?_⟩
      · rw [attemptPurchase_soldOut u p r v hm' hv hle]
        unfold tryReserveSpec
        rw [hatt, hm']
        simp [hcounter, hle]
      · unfold tryReserveSpec
        rw [hatt, hm']
        simp only [Bool.false_eq_true, if_false, hcounter, if_pos hle]
        exact absState_sadd r p u
    · have hgt : 0 < v := lt_of_not_le hle
      refine ⟨(r.setInt (RedisService.stockKey p) (v - 1)).sadd
        (RedisService.attemptedSetKey p) u, ?_, ?_⟩
      · rw [attemptPurchase_granted u p r v hm' hv hgt]
        unfold tryReserveSpec
        rw [hatt, hm']
        have h2 : ¬ v - 1 < 0 := by omega
        simp [hcounter, hle, h2]
      · unfold tryReserveSpec
        rw [hatt, hm']
        have h2 : ¬ v - 1 < 0 := by omega
        simp only [Bool.false_eq_true, if_false, hcounter, if_neg hle,
          if_neg h2]
        rw [absState_sadd, absState_setInt]

/-! ## Run lemmas -/

theorem grants_nil : grants [] = 0 := rfl

theorem grants_cons (a : RedisService.AttemptPurchaseResult)
    (l : List RedisService.AttemptPurchaseResult) :
    grants (a :: l) = (if a.success then 1 else 0) + grants l := by
  by_cases h : a.success <;> simp [grants, List.filter_cons, h, Nat.add_comm]

theorem grants_eq_zero (l : List RedisService.AttemptPurchaseResult)
    (h : ∀ a ∈ l, a.success = false) : grants l = 0 := by
  induction l with
  | nil => rfl
  | cons a l ih =>
    have ha := h a (List.mem_cons_self a l)
    rw [grants_cons, ha]
    simpa using ih fun b hb => h b (List.mem_cons_of_mem a hb)

/-- Any serialized run of the reservation script from a parseable
non-negative counter succeeds, keeps the counter equal to the initial value
minus the number of grants, and grants at most the initial value. -/
theorem runAttempts_nonneg (p : String) (us : List String) (r : Redis)
    (v : Int) (hv : r.getNum? (RedisService.stockKey p) = some v)
    (hnn : 0 ≤ v) :
    ∃ ars r', runAttempts p us r = some (ars, r') ∧
      r'.getNum? (RedisService.stockKey p) = some (v - grants ars) ∧
      (grants ars : Int) ≤ v := by
  induction us generalizing r v with
  | nil => exact ⟨[], r, rfl, by simpa [grants_nil], by simpa [grants_nil]⟩
  | cons u us ih =>
    by_cases hm : r.sets (RedisService.attemptedSetKey p) u = true
    · obtain ⟨ars, r', hrun, hc, hle⟩ := ih r v hv hnn
      refine ⟨⟨false, r.getNum? (RedisService.stockKey p), false⟩ :: ars, r',
        ?_, ?_, ?_⟩
      · simp [runAttempts, attemptPurchase_member u p r hm, hrun]
      · simpa [grants_cons] using hc
      · simpa [grants_cons] using hle
    · have hm' : r.sets (RedisService.attemptedSetKey p) u = false :=
        Bool.eq_false_iff.mpr hm
      by_cases hle : v ≤ 0
      · obtain ⟨ars, r', hrun, hc, hg⟩ :=
          ih (r.sadd (RedisService.attemptedSetKey p) u) v
            (by rwa [Redis.getNum?_sadd]) hnn
        refine ⟨⟨false, some v, true⟩ :: ars, r', ?_, ?_, ?_⟩
        · simp [runAttempts, attemptPurchase_soldOut u p r v hm' hv hle, hrun]
        · simpa [grants_cons] using hc
        · simpa [grants_cons] using hg
      · have hgt : 0 < v := lt_of_not_le hle
        obtain ⟨ars, r', hrun, hc, hg⟩ :=
          ih ((r.setInt (RedisService.stockKey p) (v - 1)).sadd
            (RedisService.attemptedSetKey p) u) (v - 1)
            (by rw [Redis.getNum?_sadd, Redis.getNum?_setInt_self]) (by omega)
        refine ⟨⟨true, some (v - 1), true⟩ :: ars, r', ?_, ?_, ?_⟩
        · simp [runAttempts, attemptPurchase_granted u p r v hm' hv hgt, hrun]
        · rw [grants_cons]
          simp only [if_pos rfl]
          rw [hc]
          congr 1
          push_cast
          ring
        · rw [grants_cons]
          simp only [if_pos rfl]
          push_cast
          omega

/-- Repeated calls by a user already in the attempted set are all denied
with `wasNewAttempt = false` and leave the store untouched. -/
theorem runAttempts_member (p u : String) (n : Nat) (r : Redis)
    (h : r.sets (RedisService.attemptedSetKey p) u = true) :
    runAttempts p (List.replicate n u) r =
      some (List.replicate n
        ⟨false, r.getNum? (RedisService.stockKey p), false⟩, r) := by
  induction n with
  | zero => simp [runAttempts]
  | succ n ih =>
    rw [List.replicate_succ, List.replicate_succ]
    simp [runAttempts, attemptPurchase_member u p r h, ih]

/-! ## Claim theorems: the reservation primitive -/

/-- C1.  No overselling: from a StockCounter initialized to `N ≥ 0`, any
serialized sequence of `tryReserve` calls by distinct users yields at most
`N` granted results, and after every prefix of the sequence the counter is
still non-negative. -/
theorem c1_no_overselling (p : String) (us : List String) (r : Redis)
    (N : Int) (_hd : us.Nodup)
    (hv : r.getNum? (RedisService.stockKey p) = some N) (hnn : 0 ≤ N) :
    (∃ ars r', runAttempts p us r = some (ars, r') ∧
      (grants ars : Int) ≤ N) ∧
    (∀ k : Nat, ∃ ars r', runAttempts p (us.take k) r = some (ars, r') ∧
      ∃ w, r'.getNum? (RedisService.stockKey p) = some w ∧ 0 ≤ w) := by
  constructor
  · obtain ⟨ars, r', h1, _, h3⟩ := runAttempts_nonneg p us r N hv hnn
    exact ⟨ars, r', h1, h3⟩
  · intro k
    obtain ⟨ars, r', h1, h2, h3⟩ := runAttempts_nonneg p (us.take k) r N hv hnn
    exact ⟨ars, r', h1, N - grants ars, h2, by omega⟩

/-- Witness for C1 at `N = 2` and three distinct users. -/
theorem c1_no_overselling_witness :
    (["10", "11", "12"] : List String).Nodup ∧
    (RedisService.initializeStock "1" 2 Redis.empty).getNum?
      (RedisService.stockKey "1") = some 2 ∧
    (0 : Int) ≤ 2 ∧
    ((∃ ars r', runAttempts "1" ["10", "11", "12"]
        (RedisService.initializeStock "1" 2 Redis.empty) = some (ars, r') ∧
        (grants ars : Int) ≤ 2) ∧
     (∀ k : Nat, ∃ ars r', runAttempts "1" (["10", "11", "12"].take k)
        (RedisService.initializeStock "1" 2 Redis.empty) = some (ars, r') ∧
      ∃ w, r'.getNum? (RedisService.stockKey "1") = some w ∧ 0 ≤ w)) :=
  ⟨by decide, by decide, by norm_num,
    c1_no_overselling "1" ["10", "11", "12"]
      (RedisService.initializeStock "1" 2 Redis.empty) 2
      (by decide) (by decide) (by norm_num)⟩

theorem replicate_results_denied (n : Nat) (rem : Option Int) :
    ∀ a ∈ List.replicate n
      (⟨false, rem, false⟩ : RedisService.AttemptPurchaseResult),
      a.wasNewAttempt = false ∧ a.success = false := by
  intro a ha
  have h := List.eq_of_mem_replicate ha
  subst h
  exact ⟨rfl, rfl⟩

theorem grants_replicate_denied (n : Nat) (rem : Option Int) :
    grants (List.replicate n
      (⟨false, rem, false⟩ : RedisService.AttemptPurchaseResult)) = 0 :=
  grants_eq_zero _ fun a ha => (replicate_results_denied n rem a ha).2

/-- C2.  At most one grant per user: a first `tryReserve(p, u)` call leaves
`u` in the attempted set whatever its outcome, and among it and any number
of subsequent `tryReserve(p, u)` calls at most one is granted, every
subsequent call reporting `firstAttempt = false` and `granted = false`. -/
theorem c2_at_most_one_grant (u p : String) (r : Redis) (v : Int) (n : Nat)
    (hv : r.getNum? (RedisService.stockKey p) = some v) :
    ∃ ar1 r1 ars r',
      RedisService.attemptPurchase u p r = some (ar1, r1) ∧
      r1.sets (RedisService.attemptedSetKey p) u = true ∧
      runAttempts p (List.replicate n u) r1 = some (ars, r') ∧
      grants (ar1 :: ars) ≤ 1 ∧
      (∀ a ∈ ars, a.wasNewAttempt = false ∧ a.success = false) := by
  by_cases hm : r.sets (RedisService.attemptedSetKey p) u = true
  · refine ⟨⟨false, r.getNum? (RedisService.stockKey p), false⟩, r, _, r,
      attemptPurchase_member u p r hm, hm, runAttempts_member p u n r hm,
      ?_, replicate_results_denied n _⟩
    rw [grants_cons, grants_replicate_denied]
    simp
  · have hm' : r.sets (RedisService.attemptedSetKey p) u = false :=
      Bool.eq_false_iff.mpr hm
    by_cases hle : v ≤ 0
    · have hmem : (r.sadd (RedisService.attemptedSetKey p) u).sets
          (RedisService.attemptedSetKey p) u = true :=
        Redis.sets_sadd_self r _ u
      refine ⟨⟨false, some v, true⟩, _, _, _,
        attemptPurchase_soldOut u p r v hm' hv hle, hmem,
        runAttempts_member p u n _ hmem, ?_, replicate_results_denied n _⟩
      rw [grants_cons, grants_replicate_denied]
      simp
    · have hgt : 0 < v := lt_of_not_le hle
      have hmem : ((r.setInt (RedisService.stockKey p) (v - 1)).sadd
          (RedisService.attemptedSetKey p) u).sets
          (RedisService.attemptedSetKey p) u = true :=
        Redis.sets_sadd_self _ _ u
      refine ⟨⟨true, some (v - 1), true⟩, _, _, _,
        attemptPurchase_granted u p r v hm' hv hgt, hmem,
        runAttempts_member p u n _ hmem, ?_, replicate_results_denied n _⟩
      rw [grants_cons, grants_replicate_denied]
      simp

/-- Witness for C2: stock 2, one first call and two repeats. -/
theorem c2_at_most_one_grant_witness :
    (RedisService.initializeStock "1" 2 Redis.empty).getNum?
      (RedisService.stockKey "1") = some 2 ∧
    (∃ ar1 r1 ars r',
      RedisService.attemptPurchase "10" "1"
        (RedisService.initializeStock "1" 2 Redis.empty) = some (ar1, r1) ∧
      r1.sets (RedisService.attemptedSetKey "1") "10" = true ∧
      runAttempts "1" (List.replicate 2 "10") r1 = some (ars, r') ∧
      grants (ar1 :: ars) ≤ 1 ∧
      (∀ a ∈ ars, a.wasNewAttempt = false ∧ a.success = false)) :=
  ⟨by decide,
    c2_at_most_one_grant "10" "1"
      (RedisService.initializeStock "1" 2 Redis.empty) 2 2 (by decide)⟩

/-- C3.  The atomic script, as decoded by the service, implements §4.1's
four-step algorithm: results agree field-for-field with the spec-side
transcription `tryReserveSpec` and the resulting store abstracts to the
spec-side state. -/
theorem c3_tryReserve_implements_spec (u p : String) (r : Redis) (v : Int)
    (hv : r.getNum? (RedisService.stockKey p) = some v) :
    ∃ r', RedisService.attemptPurchase u p r =
        some (⟨(tryReserveSpec u (absState r p)).1.granted,
               some (tryReserveSpec u (absState r p)).1.remaining,
               (tryReserveSpec u (absState r p)).1.firstAttempt⟩, r') ∧
      absState r' p = (tryReserveSpec u (absState r p)).2 :=
  attemptPurchase_refines_spec u p r v hv

/-- Witness for C3 at a concrete store. -/
theorem c3_tryReserve_implements_spec_witness :
    (RedisService.initializeStock "1" 2 Redis.empty).getNum?
      (RedisService.stockKey "1") = some 2 ∧
    (∃ r', RedisService.attemptPurchase "10" "1"
        (RedisService.initializeStock "1" 2 Redis.empty) =
        some (⟨(tryReserveSpec "10" (absState
            (RedisService.initializeStock "1" 2 Redis.empty) "1")).1.granted,
          some (tryReserveSpec "10" (absState
            (RedisService.initializeStock "1" 2 Redis.empty) "1")).1.remaining,
          (tryReserveSpec "10" (absState
            (RedisService.initializeStock "1" 2 Redis.empty) "1")).1.firstAttempt⟩,
          r') ∧
      absState r' "1" = (tryReserveSpec "10" (absState
        (RedisService.initializeStock "1" 2 Redis.empty) "1")).2) :=
  ⟨by decide,
    c3_tryReserve_implements_spec "10" "1"
      (RedisService.initializeStock "1" 2 Redis.empty) 2 (by decide)⟩

theorem Redis.getNum?_congr (r2 r : Redis) (k : String)
    (h : r2.kv k = r.kv k) : r2.getNum? k = r.getNum? k := by
  simp [Redis.getNum?, h]

/-- C10.  Frame property of a denied reservation: when the script returns
`granted = false` it leaves every string value (hence the StockCounter and
every result-cache entry) untouched, mutates set membership at most by
adding `u` to this product's attempted set, and its outcome depends only on
the two keys it is given (so it reads no result-cache entry). -/
theorem c10_denied_frame (u p : String) (r : Redis) (v : Int)
    (hv : r.getNum? (RedisService.stockKey p) = some v) :
    ∀ ar r', RedisService.attemptPurchase u p r = some (ar, r') →
      ar.success = false →
      (r'.kv = r.kv ∧ r'.ttl = r.ttl ∧
        r'.getNum? (RedisService.stockKey p) =
          r.getNum? (RedisService.stockKey p) ∧
        (∀ k w, ¬(k = RedisService.attemptedSetKey p ∧ w = u) →
          r'.sets k w = r.sets k w)) ∧
      (∀ r2 : Redis,
        r2.kv (RedisService.stockKey p) = r.kv (RedisService.stockKey p) →
        r2.sets (RedisService.attemptedSetKey p) u =
          r.sets (RedisService.attemptedSetKey p) u →
        ∃ r2', RedisService.attemptPurchase u p r2 = some (ar, r2')) := by
  intro ar r' hrun hdenied
  by_cases hm : r.sets (RedisService.attemptedSetKey p) u = true
  · rw [attemptPurchase_member u p r hm] at hrun
    injection hrun with hpair
    obtain ⟨har, hr'⟩ := Prod.mk.injEq .. ▸ hpair
    subst hr'
    subst har
    refine ⟨⟨rfl, rfl, rfl, fun k w _ => rfl⟩, ?_⟩
    intro r2 hkv hsets
    have hm2 : r2.sets (RedisService.attemptedSetKey p) u = true := by
      rw [hsets]; exact hm
    refine ⟨r2, ?_⟩
    rw [attemptPurchase_member u p r2 hm2,
      Redis.getNum?_congr r2 r (RedisService.stockKey p) hkv]
  · have hm' : r.sets (RedisService.attemptedSetKey p) u = false :=
      Bool.eq_false_iff.mpr hm
    by_cases hle : v ≤ 0
    · rw [attemptPurchase_soldOut u p r v hm' hv hle] at hrun
      injection hrun with hpair
      obtain ⟨har, hr'⟩ := Prod.mk.injEq .. ▸ hpair
      subst hr'
      subst har
      refine ⟨⟨rfl, rfl, rfl, fun k w hkw => ?_⟩, ?_⟩
      · rw [Redis.sets_sadd, if_neg hkw]
      · intro r2 hkv hsets
        have hm2 : r2.sets (RedisService.attemptedSetKey p) u = false := by
          rw [hsets]; exact hm'
        have hv2 : r2.getNum? (RedisService.stockKey p) = some v := by
          rw [Redis.getNum?_congr r2 r (RedisService.stockKey p) hkv]; exact hv
        exact ⟨_, attemptPurchase_soldOut u p r2 v hm2 hv2 hle⟩
    · have hgt : 0 < v := lt_of_not_le hle
      rw [attemptPurchase_granted u p r v hm' hv hgt] at hrun
      injection hrun with hpair
      obtain ⟨har, hr'⟩ := Prod.mk.injEq .. ▸ hpair
      rw [← har] at hdenied
      exact absurd hdenied (by simp)

/-- Witness for C10: stock 0, first-time caller, denied. -/
theorem c10_denied_frame_witness :
    (RedisService.initializeStock "1" 0 Redis.empty).getNum?
      (RedisService.stockKey "1") = some 0 ∧
    (∀ ar r', RedisService.attemptPurchase "10" "1"
        (RedisService.initializeStock "1" 0 Redis.empty) = some (ar, r') →
      ar.success = false →
      (r'.kv = (RedisService.initializeStock "1" 0 Redis.empty).kv ∧
        r'.ttl = (RedisService.initializeStock "1" 0 Redis.empty).ttl ∧
        r'.getNum? (RedisService.stockKey "1") =
          (RedisService.initializeStock "1" 0 Redis.empty).getNum?
            (RedisService.stockKey "1") ∧
        (∀ k w, ¬(k = RedisService.attemptedSetKey "1" ∧ w = "10") →
          r'.sets k w =
            (RedisService.initializeStock "1" 0 Redis.empty).sets k w)) ∧
      (∀ r2 : Redis,
        r2.kv (RedisService.stockKey "1") =
          (RedisService.initializeStock "1" 0 Redis.empty).kv
            (RedisService.stockKey "1") →
        r2.sets (RedisService.attemptedSetKey "1") "10" =
          (RedisService.initializeStock "1" 0 Redis.empty).sets
            (RedisService.attemptedSetKey "1") "10" →
        ∃ r2', RedisService.attemptPurchase "10" "1" r2 = some (ar, r2'))) :=
  ⟨by decide,
    c10_denied_frame "10" "1"
      (RedisService.initializeStock "1" 0 Redis.empty) 0 (by decide)⟩

/-! ## The user-status script and its decoding -/

/-- With no result-cache entry, `GET` yields Lua `false`; since
`false ~= nil`, the script still reports `hasResult = 1`, and the truncated
reply decodes to `result = some false` on the JS side. -/
theorem getUserStatus_noResult (u p : String) (r : Redis)
    (h : r.kv (RedisService.resultKey u p) = none) :
    RedisService.getUserStatus u p r =
      ⟨r.sets (RedisService.attemptedSetKey p) u, true, some false⟩ := by
  unfold RedisService.getUserStatus getUserStatusScript
  rw [show r.luaGet (RedisService.resultKey u p) = .fls by
    simp [Redis.luaGet, h]]
  by_cases hm : r.sets (RedisService.attemptedSetKey p) u <;>
    simp [hm, luaAnd, luaOr, LuaV.truthy, luaTonumber, luaReply,
      RedisService.jsStrictNeNull]

/-- With a stored `'1'`/`'0'` result entry, the decoded status carries the
corresponding boolean. -/
theorem getUserStatus_result (u p : String) (r : Redis) (b : Bool)
    (h : r.kv (RedisService.resultKey u p) =
      some (.str (if b then "1" else "0"))) :
    RedisService.getUserStatus u p r =
      ⟨r.sets (RedisService.attemptedSetKey p) u, true, some b⟩ := by
  cases b
  · unfold RedisService.getUserStatus getUserStatusScript
    rw [show r.luaGet (RedisService.resultKey u p) = .str "0" by
      simp [Redis.luaGet, h, RVal.render]]
    by_cases hm : r.sets (RedisService.attemptedSetKey p) u <;>
      simp [hm, luaAnd, luaOr, LuaV.truthy, luaTonumber, luaReply,
        RedisService.jsStrictNeNull, show parseIntStr "0" = some 0 by decide]
  · unfold RedisService.getUserStatus getUserStatusScript
    rw [show r.luaGet (RedisService.resultKey u p) = .str "1" by
      simp [Redis.luaGet, h, RVal.render]]
    by_cases hm : r.sets (RedisService.attemptedSetKey p) u <;>
      simp [hm, luaAnd, luaOr, LuaV.truthy, luaTonumber, luaReply,
        RedisService.jsStrictNeNull, show parseIntStr "1" = some 1 by decide]

/-- C4.  Counterexample to the claimed pending path, at a concrete input: a
user who already attempted (sale 5 in window, stock 1 left, no result-cache
entry for them) repeats `attemptPurchase`.  The claim says the call returns
the pending "being processed, check back" message; the code instead returns
`success = false` with the settled message `Your purchase attempt was
unsuccessful.`, because `GET` on the missing result key yields Lua `false`,
`result ~= nil` then holds, and the truncated reply decodes as a present
failure result.  The reservation state is indeed untouched: the counter
stays 1 and no result entry is written. -/
theorem c4_repeat_attempt_bug :
    (FlashSaleService.attemptPurchase
      (fun n => if n = 5 then some ⟨5, 1, 100, 200, 2⟩ else none) 150 true
      "10" 5
      (((RedisService.initializeStock "1" 2 Redis.empty).setInt
          (RedisService.stockKey "1") 1).sadd
        (RedisService.attemptedSetKey "1") "10")).map
        (fun x => (x.1, x.2.2, x.2.1.getNum? (RedisService.stockKey "1"),
                   x.2.1.kv (RedisService.resultKey "10" "1"))) =
      some (⟨false, "Your purchase attempt was unsuccessful."⟩,
        [Ev.stockExists "1", Ev.tryReserve "10" "1", Ev.getStatus "10" "1"],
        some 1, none) := by
  decide

/-! ## Claim theorems: the orchestrator -/

/-- C5.  Rollback correctness: in the sale window, when the reservation is
granted (counter `v > 0`, user not yet attempted) and the queue publish
fails, the orchestrator calls `restore`, the counter ends back at `v`, the
user stays in the attempted set, no key other than the stock counter is
written, and the caller gets the transient-failure message. -/
theorem c5_rollback (findById : Nat → Option FlashSale) (now : Int)
    (userId : String) (saleId : Nat) (r : Redis) (fs : FlashSale) (v : Int)
    (hfind : findById saleId = some fs)
    (hs : ¬ now < fs.startAt) (he : ¬ fs.endAt < now)
    (hex : RedisService.stockKeyExists (toString fs.productId) r = true)
    (hm : r.sets (RedisService.attemptedSetKey (toString fs.productId))
      userId = false)
    (hv : r.getNum? (RedisService.stockKey (toString fs.productId)) = some v)
    (hgt : 0 < v) :
    ∃ r', FlashSaleService.attemptPurchase findById now false userId saleId r =
      some (⟨false, "Failed to process your request. Please try again."⟩, r',
        [Ev.stockExists (toString fs.productId),
         Ev.tryReserve userId (toString fs.productId), Ev.audit,
         Ev.enqueue userId (toString fs.productId) (toString saleId),
         Ev.restore (toString fs.productId)]) ∧
      r'.getNum? (RedisService.stockKey (toString fs.productId)) = some v ∧
      r'.sets (RedisService.attemptedSetKey (toString fs.productId))
        userId = true ∧
      (∀ k, k ≠ RedisService.stockKey (toString fs.productId) →
        r'.kv k = r.kv k) := by
  have hr2 : ((r.setInt (RedisService.stockKey (toString fs.productId))
      (v - 1)).sadd (RedisService.attemptedSetKey (toString fs.productId))
        userId).getNum? (RedisService.stockKey (toString fs.productId)) =
      some (v - 1) := by
    rw [Redis.getNum?_sadd, Redis.getNum?_setInt_self]
  refine ⟨((r.setInt (RedisService.stockKey (toString fs.productId))
      (v - 1)).sadd (RedisService.attemptedSetKey (toString fs.productId))
        userId).setInt (RedisService.stockKey (toString fs.productId))
      (v - 1 + 1), ?_, ?_, ?_, ?_⟩
  · unfold FlashSaleService.attemptPurchase
    rw [hfind]
    simp only [if_neg hs, if_neg he, hex, if_true,
      attemptPurchase_granted userId (toString fs.productId) r v hm hv hgt]
    unfold RedisService.restoreStock restoreStockScript
    rw [hr2]
    simp
  · rw [Redis.getNum?_setInt_self]
    congr 1
    omega
  · rw [Redis.sets_setInt, Redis.sets_sadd_self]
  · intro k hk
    simp [Redis.setInt, Redis.sadd, Function.update_noteq hk]

/-- Witness for C5 at stock 3 in an open window. -/
theorem c5_rollback_witness :
    ((fun n => if n = 5 then some (⟨5, 1, 100, 200, 3⟩ : FlashSale)
        else none) 5 = some ⟨5, 1, 100, 200, 3⟩) ∧
    (∃ r', FlashSaleService.attemptPurchase
        (fun n => if n = 5 then some ⟨5, 1, 100, 200, 3⟩ else none) 150 false
        "10" 5 (RedisService.initializeStock "1" 3 Redis.empty) =
      some (⟨false, "Failed to process your request. Please try again."⟩, r',
        [Ev.stockExists "1", Ev.tryReserve "10" "1", Ev.audit,
         Ev.enqueue "10" "1" "5", Ev.restore "1"]) ∧
      r'.getNum? (RedisService.stockKey "1") = some 3 ∧
      r'.sets (RedisService.attemptedSetKey "1") "10" = true ∧
      (∀ k, k ≠ RedisService.stockKey "1" →
        r'.kv k = (RedisService.initializeStock "1" 3 Redis.empty).kv k)) :=
  ⟨by decide,
    c5_rollback (fun n => if n = 5 then some ⟨5, 1, 100, 200, 3⟩ else none)
      150 "10" 5 (RedisService.initializeStock "1" 3 Redis.empty)
      ⟨5, 1, 100, 200, 3⟩ 3 (by decide) (by decide) (by decide) (by decide)
      (by decide) (by decide) (by decide)⟩

/-- C7.  Eager FAILED write on denial: in the sale window, a first-time
caller hitting counter ≤ 0 gets `success = false` with the out-of-stock
message, and before returning the orchestrator writes the `'0'` result for
`(userId, productId)` into the result cache with a TTL of 86400 seconds. -/
theorem c7_eager_failed_write (findById : Nat → Option FlashSale) (now : Int)
    (kafkaOk : Bool) (userId : String) (saleId : Nat) (r : Redis)
    (fs : FlashSale) (v : Int)
    (hfind : findById saleId = some fs)
    (hs : ¬ now < fs.startAt) (he : ¬ fs.endAt < now)
    (hex : RedisService.stockKeyExists (toString fs.productId) r = true)
    (hm : r.sets (RedisService.attemptedSetKey (toString fs.productId))
      userId = false)
    (hv : r.getNum? (RedisService.stockKey (toString fs.productId)) = some v)
    (hle : v ≤ 0) :
    FlashSaleService.attemptPurchase findById now kafkaOk userId saleId r =
      some (⟨false, "Sorry, the item is out of stock."⟩,
        RedisService.setUserResult userId (toString fs.productId) false
          (r.sadd (RedisService.attemptedSetKey (toString fs.productId))
            userId),
        [Ev.stockExists (toString fs.productId),
         Ev.tryReserve userId (toString fs.productId),
         Ev.setResult userId (toString fs.productId) false]) ∧
    (RedisService.setUserResult userId (toString fs.productId) false
        (r.sadd (RedisService.attemptedSetKey (toString fs.productId))
          userId)).kv
      (RedisService.resultKey userId (toString fs.productId)) =
        some (.str "0") ∧
    (RedisService.setUserResult userId (toString fs.productId) false
        (r.sadd (RedisService.attemptedSetKey (toString fs.productId))
          userId)).ttl
      (RedisService.resultKey userId (toString fs.productId)) = some 86400 := by
  refine ⟨?_, ?_, ?_⟩
  · unfold FlashSaleService.attemptPurchase
    rw [hfind]
    simp only [if_neg hs, if_neg he, hex, if_true,
      attemptPurchase_soldOut userId (toString fs.productId) r v hm hv hle]
    simp
  · simp [RedisService.setUserResult, setUserResultScript, Redis.setex]
  · simp [RedisService.setUserResult, setUserResultScript, Redis.setex]

/-- Witness for C7: sold-out counter 0, fresh caller, open window. -/
theorem c7_eager_failed_write_witness :
    ((fun n => if n = 5 then some (⟨5, 1, 100, 200, 0⟩ : FlashSale)
        else none) 5 = some ⟨5, 1, 100, 200, 0⟩) ∧
    (FlashSaleService.attemptPurchase
        (fun n => if n = 5 then some ⟨5, 1, 100, 200, 0⟩ else none) 150 true
        "10" 5 (RedisService.initializeStock "1" 0 Redis.empty) =
      some (⟨false, "Sorry, the item is out of stock."⟩,
        RedisService.setUserResult "10" "1" false
          ((RedisService.initializeStock "1" 0 Redis.empty).sadd
            (RedisService.attemptedSetKey "1") "10"),
        [Ev.stockExists "1", Ev.tryReserve "10" "1",
         Ev.setResult "10" "1" false]) ∧
      (RedisService.setUserResult "10" "1" false
          ((RedisService.initializeStock "1" 0 Redis.empty).sadd
            (RedisService.attemptedSetKey "1") "10")).kv
        (RedisService.resultKey "10" "1") = some (.str "0") ∧
      (RedisService.setUserResult "10" "1" false
          ((RedisService.initializeStock "1" 0 Redis.empty).sadd
            (RedisService.attemptedSetKey "1") "10")).ttl
        (RedisService.resultKey "10" "1") = some 86400) :=
  ⟨by decide,
    c7_eager_failed_write
      (fun n => if n = 5 then some ⟨5, 1, 100, 200, 0⟩ else none) 150 true
      "10" 5 (RedisService.initializeStock "1" 0 Redis.empty)
      ⟨5, 1, 100, 200, 0⟩ 0 (by decide) (by decide) (by decide) (by decide)
      (by decide) (by decide) (by decide)⟩

/-- C8.  Sale-window gating: with no sale found, before `startAt`, or after
`endAt`, `attemptPurchase` returns a terminal failure carrying the
respective message (with the boundary time), leaves the store exactly as it
was, and makes no Redis call at all (the trace is empty); at any instant
with `startAt ≤ now ≤ endAt` — the closed interval, so both boundaries are
admitted — every completed call has actually invoked `tryReserve`. -/
theorem c8_window_gating (findById : Nat → Option FlashSale) (now : Int)
    (kafkaOk : Bool) (userId : String) (saleId : Nat) (r : Redis) :
    (findById saleId = none →
      FlashSaleService.attemptPurchase findById now kafkaOk userId saleId r =
        some (⟨false, "Flash sale with ID " ++ toString saleId ++
          " not found."⟩, r, [])) ∧
    (∀ fs, findById saleId = some fs → now < fs.startAt →
      FlashSaleService.attemptPurchase findById now kafkaOk userId saleId r =
        some (⟨false, "Flash sale is not yet active. Start time: " ++
          isoString fs.startAt⟩, r, [])) ∧
    (∀ fs, findById saleId = some fs → fs.startAt ≤ now → fs.endAt < now →
      FlashSaleService.attemptPurchase findById now kafkaOk userId saleId r =
        some (⟨false, "Flash sale has ended. End time: " ++
          isoString fs.endAt⟩, r, [])) ∧
    (∀ fs, findById saleId = some fs → fs.startAt ≤ now → now ≤ fs.endAt →
      ∀ out, FlashSaleService.attemptPurchase findById now kafkaOk userId
          saleId r = some out →
        Ev.tryReserve userId (toString fs.productId) ∈ out.2.2) := by
  refine ⟨?_, ?_, ?_, ?_⟩
  · intro hnone
    unfold FlashSaleService.attemptPurchase
    rw [hnone]
  · intro fs hfs hlt
    unfold FlashSaleService.attemptPurchase
    rw [hfs]
    simp [if_pos hlt]
  · intro fs hfs hge hgt
    unfold FlashSaleService.attemptPurchase
    rw [hfs]
    simp [if_neg (not_lt.mpr hge), if_pos hgt]
  · intro fs hfs h1 h2 out hsome
    unfold FlashSaleService.attemptPurchase at hsome
    simp only [hfs, if_neg (not_lt.mpr h1), if_neg (not_lt.mpr h2)] at hsome
    rcases hq : RedisService.attemptPurchase userId (toString fs.productId)
        (if RedisService.stockKeyExists (toString fs.productId) r = true
         then r
         else RedisService.initializeStock (toString fs.productId)
           fs.remainingStock r) with _ | ⟨ar, r2⟩
    · rw [hq] at hsome
      cases hsome
    · rcases hr : RedisService.restoreStock (toString fs.productId) r2
          with _ | ⟨n3, r3⟩ <;>
        simp only [hq, hr] at hsome <;> split_ifs at hsome <;>
          (try cases hsome) <;> simp

/-- Witness for C8, exercising the before-start conjunct at `now = 50`
against a sale starting at 100. -/
theorem c8_window_gating_witness :
    ((fun n => if n = 5 then some (⟨5, 1, 100, 200, 3⟩ : FlashSale)
        else none) 5 = some ⟨5, 1, 100, 200, 3⟩) ∧
    ((50 : Int) < 100) ∧
    FlashSaleService.attemptPurchase
      (fun n => if n = 5 then some ⟨5, 1, 100, 200, 3⟩ else none) 50 true
      "10" 5 Redis.empty =
      some (⟨false, "Flash sale is not yet active. Start time: " ++
        isoString 100⟩, Redis.empty, []) :=
  ⟨by decide, by decide,
    (c8_window_gating
      (fun n => if n = 5 then some ⟨5, 1, 100, 200, 3⟩ else none)
      50 true "10" 5 Redis.empty).2.1 ⟨5, 1, 100, 200, 3⟩ (by decide)
      (by decide)⟩

/-- The reservation script errors (and the promise rejects) when the stored
stock value is a non-numeric string and the caller is not yet attempted. -/
theorem attemptPurchase_parseError (u p : String) (r : Redis)
    (hm : r.sets (RedisService.attemptedSetKey p) u = false)
    (hg : r.getNum? (RedisService.stockKey p) = none) :
    RedisService.attemptPurchase u p r = none := by
  unfold RedisService.attemptPurchase attemptPurchaseScript
  simp [hm, hg]

/-- C9.  Key-space layout: the three key builders produce exactly the §6
templates; `setUserResult` writes exactly `'1'`/`'0'` at the result key with
a TTL of 86400 seconds and touches nothing else; `initializeStock` stores
the decimal integer string at the stock key and touches no other string
key; and the reservation script writes string values only at the stock key
and set membership only at the attempted-set key. -/
theorem c9_keyspace (u p : String) (b : Bool) (n : Int) (r : Redis) :
    RedisService.stockKey p = "flashsale:stock:" ++ p ∧
    RedisService.attemptedSetKey p = "flashsale:attempted:" ++ p ∧
    RedisService.resultKey u p = "flashsale:result:" ++ u ++ ":" ++ p ∧
    ((RedisService.setUserResult u p b r).kv (RedisService.resultKey u p) =
        some (.str (if b then "1" else "0")) ∧
      (RedisService.setUserResult u p b r).ttl (RedisService.resultKey u p) =
        some 86400 ∧
      (∀ k, k ≠ RedisService.resultKey u p →
        (RedisService.setUserResult u p b r).kv k = r.kv k ∧
        (RedisService.setUserResult u p b r).ttl k = r.ttl k) ∧
      (RedisService.setUserResult u p b r).sets = r.sets) ∧
    ((RedisService.initializeStock p n r).kv (RedisService.stockKey p) =
        some (.int n) ∧
      (RVal.int n).render = toString n ∧
      (∀ k, k ≠ RedisService.stockKey p →
        (RedisService.initializeStock p n r).kv k = r.kv k) ∧
      (RedisService.initializeStock p n r).sets = r.sets) ∧
    (∀ ar r', RedisService.attemptPurchase u p r = some (ar, r') →
      (∀ k, k ≠ RedisService.stockKey p →
        r'.kv k = r.kv k ∧ r'.ttl k = r.ttl k) ∧
      (∀ k w, k ≠ RedisService.attemptedSetKey p →
        r'.sets k w = r.sets k w)) := by
  refine ⟨rfl, rfl, rfl, ⟨?_, ?_, ?_, rfl⟩, ⟨?_, rfl, ?_, rfl⟩, ?_⟩
  · simp [RedisService.setUserResult, setUserResultScript, Redis.setex]
  · simp [RedisService.setUserResult, setUserResultScript, Redis.setex]
  · intro k hk
    constructor <;>
      simp [RedisService.setUserResult, setUserResultScript, Redis.setex,
        Function.update_noteq hk]
  · simp [RedisService.initializeStock, initializeStockScript, Redis.set]
  · intro k hk
    simp [RedisService.initializeStock, initializeStockScript, Redis.set,
      Function.update_noteq hk]
  · intro ar r' h
    by_cases hm : r.sets (RedisService.attemptedSetKey p) u = true
    · rw [attemptPurchase_member u p r hm] at h
      injection h with hpair
      obtain ⟨har, hr'⟩ := Prod.mk.injEq .. ▸ hpair
      subst hr'
      exact ⟨fun k _ => ⟨rfl, rfl⟩, fun k w _ => rfl⟩
    · have hm' : r.sets (RedisService.attemptedSetKey p) u = false :=
        Bool.eq_false_iff.mpr hm
      cases hg : r.getNum? (RedisService.stockKey p) with
      | none =>
        rw [attemptPurchase_parseError u p r hm' hg] at h
        cases h
      | some v =>
        rcases le_or_lt v 0 with hle | hgt
        · rw [attemptPurchase_soldOut u p r v hm' hg hle] at h
          injection h with hpair
          obtain ⟨har, hr'⟩ := Prod.mk.injEq .. ▸ hpair
          subst hr'
          refine ⟨fun k _ => ⟨rfl, rfl⟩, fun k w hk => ?_⟩
          rw [Redis.sets_sadd, if_neg (by tauto)]
        · rw [attemptPurchase_granted u p r v hm' hg hgt] at h
          injection h with hpair
          obtain ⟨har, hr'⟩ := Prod.mk.injEq .. ▸ hpair
          subst hr'
          refine ⟨fun k hk => ⟨?_, rfl⟩, fun k w hk => ?_⟩
          · rw [Redis.kv_sadd]
            simp [Redis.setInt, Function.update_noteq hk]
          · rw [Redis.sets_sadd, if_neg (by tauto), Redis.sets_setInt]

/-- Witness for C9, reading off the concrete `'0'` write with its TTL. -/
theorem c9_keyspace_witness :
    RedisService.resultKey "10" "1" = "flashsale:result:10:1" ∧
    (RedisService.setUserResult "10" "1" false Redis.empty).kv
      "flashsale:result:10:1" = some (.str "0") ∧
    (RedisService.setUserResult "10" "1" false Redis.empty).ttl
      "flashsale:result:10:1" = some 86400 :=
  ⟨(c9_keyspace "10" "1" false 0 Redis.empty).2.2.1,
    (c9_keyspace "10" "1" false 0 Redis.empty).2.2.2.1.1,
    (c9_keyspace "10" "1" false 0 Redis.empty).2.2.2.1.2.1⟩

/-! ## Worker lemmas and claim theorem: idempotent finalization -/

theorem setUserResult_kv_self (u p : String) (b : Bool) (r : Redis) :
    (RedisService.setUserResult u p b r).kv (RedisService.resultKey u p) =
      some (.str (if b then "1" else "0")) := by
  simp [RedisService.setUserResult, setUserResultScript, Redis.setex]

theorem findByUserId_of_fresh (uidStr : String) (uid sid : Int) (db : Db)
    (hu : parseIntStr uidStr = some uid) (hfresh : ordersFor db uid sid = 0) :
    OrderRepository.findByUserId uidStr sid db = none := by
  unfold OrderRepository.findByUserId
  rw [hu]
  rw [List.find?_eq_none]
  intro o ho hpo
  have : o ∈ db.orders.filter fun o => o.userId = uid ∧ o.saleId = sid :=
    List.mem_filter.mpr ⟨ho, hpo⟩
  rw [List.length_eq_zero.mp hfresh] at this
  cases this

theorem process_existing (a : FlashSaleAttempt) (mid : Db → Db) (r : Redis)
    (db : Db) (o : OrderRow) (hsale : ¬ a.saleId = "")
    (hfind : OrderRepository.findByUserId a.userId
      ((parseIntStr a.saleId).getD 0) db = some o) :
    processFlashSaleAttempt a mid r db =
      (RedisService.setUserResult a.userId a.productId
        (o.status = "SUCCESS") r, db) := by
  unfold processFlashSaleAttempt
  rw [if_neg hsale]
  simp only [hfind]

theorem deliverN_existing (a : FlashSaleAttempt) (r : Redis) (db : Db)
    (o : OrderRow) (n : Nat) (hsale : ¬ a.saleId = "")
    (hfind : OrderRepository.findByUserId a.userId
      ((parseIntStr a.saleId).getD 0) db = some o) :
    (deliverN a (n + 1) (r, db)).2 = db ∧
    (deliverN a (n + 1) (r, db)).1.kv
        (RedisService.resultKey a.userId a.productId) =
      some (.str (if o.status = "SUCCESS" then "1" else "0")) := by
  induction n generalizing r with
  | zero =>
    have hstep : deliverN a (0 + 1) (r, db) =
        processFlashSaleAttempt a id r db := rfl
    rw [hstep, process_existing a id r db o hsale hfind]
    refine ⟨rfl, ?_⟩
    rw [setUserResult_kv_self]
    by_cases hst : o.status = "SUCCESS" <;> simp [hst]
  | succ n ih =>
    have hstep : deliverN a (n + 1 + 1) (r, db) =
        deliverN a (n + 1) (processFlashSaleAttempt a id r db) := rfl
    rw [hstep, process_existing a id r db o hsale hfind]
    exact ih _

theorem create_fresh (uidStr pidStr : String) (sid uid pid : Int) (db : Db)
    (hu : parseIntStr uidStr = some uid) (hp : parseIntStr pidStr = some pid)
    (hsid : ¬ sid = 0)
    (hfresh : ordersFor db uid sid = 0) :
    OrderRepository.create uidStr pidStr "SUCCESS" sid db =
      .ok (⟨db.nextId, sid, pid, uid, "SUCCESS"⟩,
        { orders := db.orders ++ [⟨db.nextId, sid, pid, uid, "SUCCESS"⟩],
          nextId := db.nextId + 1 }) := by
  unfold OrderRepository.create
  rw [hu, hp]
  have hany : (db.orders.any fun o => o.saleId = sid ∧ o.userId = uid)
      = false := by
    simp only [List.any_eq_false, decide_eq_true_eq, not_and]
    intro o ho h1 h2
    have : o ∈ db.orders.filter fun o => o.userId = uid ∧ o.saleId = sid :=
      List.mem_filter.mpr ⟨ho, by simp [h1, h2]⟩
    rw [List.length_eq_zero.mp hfresh] at this
    cases this
  simp only [if_neg hsid]
  rw [hany]
  simp

theorem process_fresh (a : FlashSaleAttempt) (r : Redis) (db : Db)
    (uid sid pid : Int) (hsale : ¬ a.saleId = "")
    (hu : parseIntStr a.userId = some uid)
    (hs : parseIntStr a.saleId = some sid)
    (hp : parseIntStr a.productId = some pid)
    (hsid : ¬ sid = 0)
    (hstock : ¬ RedisService.getStock a.productId r < 0)
    (hfresh : ordersFor db uid sid = 0) :
    processFlashSaleAttempt a id r db =
      (RedisService.setUserResult a.userId a.productId true r,
        { orders := db.orders ++ [⟨db.nextId, sid, pid, uid, "SUCCESS"⟩],
          nextId := db.nextId + 1 }) := by
  unfold processFlashSaleAttempt
  rw [if_neg hsale]
  simp only [hs, Option.getD_some, id_eq,
    findByUserId_of_fresh a.userId uid sid db hu hfresh,
    if_neg hstock,
    create_fresh a.userId a.productId sid uid pid db hu hp hsid hfresh]


theorem findByUserId_after_insert (uidStr : String) (uid sid pid : Int)
    (idx nid : Nat) (db : Db)
    (hu : parseIntStr uidStr = some uid) (hfresh : ordersFor db uid sid = 0) :
    OrderRepository.findByUserId uidStr sid
      { orders := db.orders ++ [⟨idx, sid, pid, uid, "SUCCESS"⟩],
          nextId := nid } = some ⟨idx, sid, pid, uid, "SUCCESS"⟩ := by
  unfold OrderRepository.findByUserId
  rw [hu]
  show (db.orders ++ [(⟨idx, sid, pid, uid, "SUCCESS"⟩ : OrderRow)]).find?
    _ = _
  rw [List.find?_append]
  have h1 : (db.orders.find? fun o => o.userId = uid ∧ o.saleId = sid)
      = none := by
    rw [List.find?_eq_none]
    intro o ho hpo
    have : o ∈ db.orders.filter fun o => o.userId = uid ∧ o.saleId = sid :=
      List.mem_filter.mpr ⟨ho, hpo⟩
    rw [List.length_eq_zero.mp hfresh] at this
    cases this
  rw [h1]
  simp [List.find?]

theorem ordersFor_after_insert (db : Db) (uid sid pid : Int) (idx nid : Nat)
    (hfresh : ordersFor db uid sid = 0) :
    ordersFor { orders := db.orders ++ [⟨idx, sid, pid, uid, "SUCCESS"⟩],
                nextId := nid } uid sid = 1 := by
  unfold ordersFor at hfresh ⊢
  show ((db.orders ++ [(⟨idx, sid, pid, uid, "SUCCESS"⟩ : OrderRow)]).filter
    _).length = 1
  rw [List.filter_append, List.length_eq_zero.mp hfresh]
  simp [List.filter]

/-- C6.  Idempotent finalization: delivering one Attempt Queue message
`N + 1` times (any `N ≥ 0`) to the finalizer yields exactly one Order row
for `(userId, saleId)` and writes that single outcome (`'1'`) into the
result cache; if an order already exists — found by the initial lookup, or
(modelled by the interference `mid` committed by a concurrent finalizer
between the lookup and the insert) surfaced as the unique-constraint
`already exists` error on insert — no new order is created and the existing
order's status is written to the result cache instead. -/
theorem c6_idempotent_finalization (a : FlashSaleAttempt)
    (uid sid pid : Int) (r : Redis) (db : Db) (N : Nat)
    (hsale : ¬ a.saleId = "")
    (hu : parseIntStr a.userId = some uid)
    (hs : parseIntStr a.saleId = some sid)
    (hp : parseIntStr a.productId = some pid)
    (hsid : ¬ sid = 0)
    (hstock : ¬ RedisService.getStock a.productId r < 0) :
    (ordersFor db uid sid = 0 →
      ordersFor (deliverN a (N + 1) (r, db)).2 uid sid = 1 ∧
      (deliverN a (N + 1) (r, db)).1.kv
        (RedisService.resultKey a.userId a.productId) = some (.str "1")) ∧
    (∀ o, OrderRepository.findByUserId a.userId sid db = some o →
      (deliverN a (N + 1) (r, db)).2 = db ∧
      (deliverN a (N + 1) (r, db)).1.kv
        (RedisService.resultKey a.userId a.productId) =
        some (.str (if o.status = "SUCCESS" then "1" else "0"))) ∧
    (∀ (mid : Db → Db) o, ordersFor db uid sid = 0 →
      OrderRepository.findByUserId a.userId sid (mid db) = some o →
      (processFlashSaleAttempt a mid r db).2 = mid db ∧
      (processFlashSaleAttempt a mid r db).1.kv
        (RedisService.resultKey a.userId a.productId) =
        some (.str (if o.status = "SUCCESS" then "1" else "0"))) := by
  have hgd : (parseIntStr a.saleId).getD 0 = sid := by rw [hs]; rfl
  refine ⟨?_, ?_, ?_⟩
  · intro hfresh
    have hstep : deliverN a (N + 1) (r, db) =
        deliverN a N (processFlashSaleAttempt a id r db) := rfl
    rw [hstep,
      process_fresh a r db uid sid pid hsale hu hs hp hsid hstock hfresh]
    have hfind2 : OrderRepository.findByUserId a.userId
        ((parseIntStr a.saleId).getD 0)
        { orders := db.orders ++ [⟨db.nextId, sid, pid, uid, "SUCCESS"⟩],
            nextId := db.nextId + 1 } =
        some ⟨db.nextId, sid, pid, uid, "SUCCESS"⟩ := by
      rw [hgd]
      exact findByUserId_after_insert a.userId uid sid pid db.nextId
        (db.nextId + 1) db hu hfresh
    cases N with
    | zero =>
      refine ⟨ordersFor_after_insert db uid sid pid db.nextId
        (db.nextId + 1) hfresh, ?_⟩
      show (RedisService.setUserResult a.userId a.productId true r).kv _ = _
      rw [setUserResult_kv_self]
      simp
    | succ n =>
      obtain ⟨h1, h2⟩ := deliverN_existing a
        (RedisService.setUserResult a.userId a.productId true r)
        { orders := db.orders ++ [⟨db.nextId, sid, pid, uid, "SUCCESS"⟩],
            nextId := db.nextId + 1 }
        ⟨db.nextId, sid, pid, uid, "SUCCESS"⟩ n hsale hfind2
      rw [h1, h2]
      exact ⟨ordersFor_after_insert db uid sid pid db.nextId
        (db.nextId + 1) hfresh, by simp⟩
  · intro o hfind
    have hfind' : OrderRepository.findByUserId a.userId
        ((parseIntStr a.saleId).getD 0) db = some o := by rw [hgd]; exact hfind
    exact deliverN_existing a r db o N hsale hfind'
  · intro mid o hfresh hfind
    have hcreate : OrderRepository.create a.userId a.productId "SUCCESS" sid
        (mid db) = .error "Order already exists for this user" := by
      unfold OrderRepository.create
      rw [hu, hp]
      simp only [if_neg hsid]
      have hmem : o ∈ (mid db).orders ∧
          (o.userId = uid ∧ o.saleId = sid) := by
        unfold OrderRepository.findByUserId at hfind
        rw [hu] at hfind
        exact ⟨List.mem_of_find?_eq_some hfind,
          by simpa using List.find?_some hfind⟩
      have hany : ((mid db).orders.any fun o2 =>
          o2.saleId = sid ∧ o2.userId = uid) = true := by
        rw [List.any_eq_true]
        exact ⟨o, hmem.1, by simp [hmem.2.1, hmem.2.2]⟩
      rw [hany]
      simp
    have hrun : processFlashSaleAttempt a mid r db =
        (RedisService.setUserResult a.userId a.productId
          (o.status = "SUCCESS") r, mid db) := by
      unfold processFlashSaleAttempt
      rw [if_neg hsale]
      simp only [hs, Option.getD_some,
        findByUserId_of_fresh a.userId uid sid db hu hfresh,
        if_neg hstock, hcreate,
        show jsIncludes "Order already exists for this user" "already exists"
          = true by decide,
        if_true, hfind]
    rw [hrun]
    refine ⟨rfl, ?_⟩
    rw [setUserResult_kv_self]
    by_cases hst : o.status = "SUCCESS" <;> simp [hst]

/-- Witness for C6: message for user 10 on sale 5, stock 0, empty orders
table, delivered twice. -/
theorem c6_idempotent_finalization_witness :
    ordersFor (deliverN ⟨"10", "1", "5", 0⟩ 2
      (RedisService.initializeStock "1" 0 Redis.empty,
        ⟨[], 1⟩)).2 10 5 = 1 ∧
    (deliverN ⟨"10", "1", "5", 0⟩ 2
      (RedisService.initializeStock "1" 0 Redis.empty, ⟨[], 1⟩)).1.kv
      (RedisService.resultKey "10" "1") = some (.str "1") :=
  (c6_idempotent_finalization ⟨"10", "1", "5", 0⟩ 10 5 1
    (RedisService.initializeStock "1" 0 Redis.empty) ⟨[], 1⟩ 1
    (by decide) (by decide) (by decide) (by decide) (by decide)
    (by decide)).1 (by decide)
